import Mathlib

/-!
Verification of the safe path resolution and archive-handling core of the
`globalApi` file-manager (`app/server_manager/file_manager/utils.py` and
`app/server_manager/file_manager/service.py`).

POSIX paths are embedded as an absolute-flag together with a list of name
segments.  Machinery mirrors the Python `pathlib` / `os.path` operations the
source uses: `parsePath` is `Path(s)`, `normpath` is `os.path.normpath`,
`relTo` is `PurePath.relative_to`, `pyJoin` is the `/` join operator,
`parent` is `Path.parent`, and `resolveP` is `Path.resolve(strict=False)`
against an explicit table of symlinks (the filesystem's symlink state is a
parameter of the model; call sites, as in the source, only resolve absolute
paths).
-/

namespace FileManager

/-- A POSIX path as `pathlib` represents it: an absolute-flag plus the name
segments (`parts`). `""` and `"."` segments are already dropped, `".."` is
kept, exactly as `PurePosixPath` does. -/
structure PyPath where
  abs : Bool
  segs : List String
deriving DecidableEq, Repr

/-- Python `str.split(sep)` on a character list: every run between separators
becomes one piece, empty pieces included (`split('/')` of `"/a//b"` is
`["", "a", "", "b"]`). -/
def splitChars (sep : Char) : List Char → List (List Char)
  | [] => [[]]
  | c :: rest =>
    if c == sep then [] :: splitChars sep rest
    else
      match splitChars sep rest with
      | s :: ss => (c :: s) :: ss
      | [] => [[c]]

/-- Python `str.endswith(suf)`: the suffix's characters end the string. -/
def strEndsWith (s suf : String) : Bool :=
  suf.data.reverse.isPrefixOf s.data.reverse

/-- Embeds `Path(s)` for a POSIX string: absolute iff it starts with `/`; split on
`/`, dropping empty and `"."` segments, keeping `".."`. -/
def parsePath (s : String) : PyPath :=
  let cs := s.data
  let absFlag := match cs with | '/' :: _ => true | _ => false
  ⟨absFlag, ((splitChars '/' cs).map String.mk).filter
      (fun t => !(t == "") && !(t == "."))⟩

/-- One step of `os.path.normpath`'s stack-based `".."` collapsing; the stack
is kept reversed. On an absolute path a `".."` at the top is dropped; on a
relative path it is kept. -/
def normStep (absFlag : Bool) (stack : List String) (s : String) : List String :=
  if s == ".." then
    match stack with
    | [] => if absFlag then [] else [".."]
    | t :: rest => if t == ".." then s :: t :: rest else rest
  else s :: stack

/-- Embeds `os.path.normpath`: lexically collapse `".."` segments (the input has no
empty or `"."` segments because it came from `parsePath`). -/
def normpath (p : PyPath) : PyPath :=
  ⟨p.abs, (p.segs.foldl (normStep p.abs) []).reverse⟩

/-- Embeds `PurePath.relative_to`: succeeds (with the remaining segments) exactly
when the candidate has the same kind and the base's segments as a
segment-wise prefix; `ValueError` is `none`. -/
def relTo (p base : PyPath) : Option (List String) :=
  if base.segs.isPrefixOf p.segs && (p.abs == base.abs) then
    some (p.segs.drop base.segs.length)
  else none

/-- The `/` join of `pathlib`: an absolute right operand replaces the left. -/
def pyJoin (p q : PyPath) : PyPath :=
  if q.abs then q else ⟨p.abs, p.segs ++ q.segs⟩

/-- Embeds `Path.parent`: drop the last segment (the parent of the root is the
root itself, as in `pathlib`). -/
def parent (p : PyPath) : PyPath :=
  ⟨p.abs, p.segs.dropLast⟩

/-- The symlink state of the filesystem: an association from an absolute
path's segments to the (absolute) segments of the link's target. -/
def FS : Type := List (List String × List String)

/-- Segment-wise symlink resolution as `Path.resolve(strict=False)` /
POSIX `realpath` perform it: walk the segments left to right, pop on `".."`,
and on meeting a link restart on its target followed by the rest.  Fuel
bounds link chains; the call sites below always supply enough. -/
def resolveSegs (links : FS) : Nat → List String → List String → List String
  | 0, acc, rest => acc ++ rest
  | _ + 1, acc, [] => acc
  | fuel + 1, acc, s :: rest =>
    if s == ".." then resolveSegs links fuel acc.dropLast rest
    else
      match links.lookup (acc ++ [s]) with
      | some target => resolveSegs links fuel [] (target ++ rest)
      | none => resolveSegs links fuel (acc ++ [s]) rest

/-- Fuel that suffices for the link tables used here. -/
def fuelFor (links : FS) (p : PyPath) : Nat :=
  (p.segs.length + 1) * (links.length + 1) *
    (links.foldl (fun n l => n + l.2.length) 1 + 1)

/-- Embeds `Path.resolve(strict=False)` on an absolute path (every call site in the
source resolves an absolute path). -/
def resolveP (links : FS) (p : PyPath) : PyPath :=
  ⟨true, resolveSegs links (fuelFor links p) [] p.segs⟩

/-- The error taxonomy the two modules raise (`HTTPException` payloads),
plus the `NameError`/`ImportError` fault of an unresolvable name. -/
inductive Err where
  | noRoots        -- 500, no allowed roots configured (ConfigurationError)
  | invalid        -- 400, relative path with a ".." segment (PathInvalidError)
  | denied         -- 403, path not under any allowed root (PathDeniedError)
  | notFound       -- 404
  | notDir         -- 400, target is not a directory
  | alreadyExists  -- 409
  | zipSlip        -- 400, zip entry fails the traversal check (PathTraversalError)
  | unsupported    -- 400, uploaded name does not end in ".zip"
  | nameErr        -- NameError/ImportError: a referenced name is not defined
deriving DecidableEq, Repr

/-- The absolute branch's loop of `resolve_safe_path`: for each root, check
the normalized (still unresolved) input against the root's resolved form;
on the first match return the input's full symlink resolution — with no
containment re-check after that resolution. -/
def absLoop (links : FS) (normalized : PyPath) : List PyPath → Except Err PyPath
  | [] => .error .denied
  | r :: rest =>
    if (relTo normalized (resolveP links r)).isSome then
      .ok (resolveP links normalized)
    else absLoop links normalized rest

/-- The relative branch's loop of `resolve_safe_path`: join each root with
the input, resolve the candidate, and keep it only if the resolved candidate
is still under the root's resolved form. -/
def relLoop (links : FS) (input : PyPath) : List PyPath → Except Err PyPath
  | [] => .error .denied
  | r :: rest =>
    let rc := resolveP links (pyJoin r input)
    if (relTo rc (resolveP links r)).isSome then .ok rc
    else relLoop links input rest

/-- Embeds `resolve_safe_path` (`utils.py`, lines 8–54): fetch the allowed roots
(500 when empty), default the empty input to the first root, dispatch the
absolute branch (normalize, containment against the resolved root, then
resolve), reject relative inputs holding a `".."` segment (400), and run the
relative branch loop; fall through to 403. -/
def resolve_safe_path (links : FS) (roots : List PyPath) (subpath : String) :
    Except Err PyPath :=
  match roots with
  | [] => .error .noRoots
  | r0 :: _ =>
    if subpath == "" then .ok r0
    else
      let input := parsePath subpath
      if input.abs then absLoop links (normpath input) roots
      else if input.segs.contains ".." then .error .invalid
      else relLoop links input roots

/-- The characters of `"/".join(segs)`: segments joined by `'/'`. -/
def segStr : List String → List Char
  | [] => []
  | [s] => s.data
  | s :: t :: rest => s.data ++ '/' :: segStr (t :: rest)

/-- The characters of `str(path)` for a `pathlib` path (an absolute path
gains a leading slash; `str(Path("/"))` is `"/"`). -/
def pyStr (p : PyPath) : List Char :=
  if p.abs then '/' :: segStr p.segs else segStr p.segs

/-- Embeds `Path(name).stem` of the final component `nm`: the name with its last
dot-suffix removed; a lone leading dot (as in `".zip"`) is not a suffix. -/
def stemOfName (nm : String) : String :=
  let parts := (splitChars '.' nm.data).map String.mk
  match parts with
  | [] => nm
  | [_] => nm
  | firstPart :: _ =>
    if firstPart == "" && parts.length == 2 then nm
    else String.intercalate "." parts.dropLast

/-- Embeds `Path(s).stem`: the stem of the last segment of the parsed path. -/
def stemP (s : String) : String :=
  stemOfName ((parsePath s).segs.getLastD s)

/-- The per-entry zip-slip test of `upload_and_extract_zip` (`service.py`,
lines 126–129): `str((extract_to / member.filename).resolve())` must start
with `str(extract_to.resolve())` — a character-level prefix comparison of the
two rendered paths, exactly as `str.startswith` performs it. -/
def entryCheck (links : FS) (extract_to : PyPath) (name : String) : Bool :=
  (pyStr (resolveP links extract_to)).isPrefixOf
    (pyStr (resolveP links (pyJoin extract_to (parsePath name))))

/-!
The `service.py` module and its import environment.  The module-level names
bound in `utils.py` are its top-level imports and its two function
definitions; `service.py`'s `from .utils import ...` statement asks for
three names.
-/

/-- The names bound at module level in `utils.py`: the imports on lines 1–6
and the two functions it defines. -/
def utilsModuleNames : List String :=
  ["os", "zipfile", "tempfile", "Path", "Generator", "List", "HTTPException",
   "resolve_safe_path", "generate_zip_from_folder"]

/-- The names `service.py` line 7 imports from `.utils`. -/
def serviceUtilsImports : List String :=
  ["resolve_safe_path", "generate_zip_from_folder", "ALLOWED_ROOTS"]

/-- Looking up `ALLOWED_ROOTS` in the `utils` module namespace: the value
the service's root loop would iterate, available only if `utils.py` binds
the name. -/
def allowedRootsImport : Option (List PyPath) :=
  if utilsModuleNames.contains "ALLOWED_ROOTS" then some [] else none

/-- The root loop of `_get_current_root` (`service.py`, lines 12–17): first
root (unresolved, by registry order) that contains the path segment-wise. -/
def firstOwner (p : PyPath) : List PyPath → Except Err PyPath
  | [] => .error .denied
  | r :: rest => if (relTo p r).isSome then .ok r else firstOwner p rest

/-- Embeds `_get_current_root` (`service.py`, lines 10–18): iterate the imported
`ALLOWED_ROOTS`; referencing the name faults when no module defines it. -/
def get_current_root (p : PyPath) : Except Err PyPath :=
  match allowedRootsImport with
  | none => .error .nameErr
  | some roots => firstOwner p roots

/-- Embeds `_get_virtual_path` (`service.py`, lines 21–24): the path rendered
relative to its owning root (`str` of a relative path with no segments is
`"."`). -/
def get_virtual_path (p : PyPath) : Except Err String :=
  match get_current_root p with
  | .error e => .error e
  | .ok r =>
    match relTo p r with
    | some [] => .ok "."
    | some t => .ok (String.intercalate "/" t)
    | none => .error .denied

/-- A filesystem mutation one of the service operations performs before it
returns or raises. -/
inductive FsAction where
  | mkdirP (p : PyPath)                              -- Path.mkdir(parents=True)
  | renameFs (src dst : PyPath)                      -- Path.rename
  | unlinkFs (p : PyPath)                            -- Path.unlink
  | rmtreeFs (p : PyPath)                            -- shutil.rmtree
  | writeFile (p : PyPath)                           -- open(p, "wb").write
  | extractAll (dest : PyPath) (entries : List String)  -- ZipFile.extractall
deriving DecidableEq, Repr

/-- Embeds `create_folder` (`service.py`, lines 59–64).  `exPaths` lists the paths
that exist.  Returns the mutations performed and the result. -/
def create_folder (links : FS) (roots : List PyPath) (exPaths : List PyPath)
    (path : String) : List FsAction × Except Err String :=
  match resolve_safe_path links roots path with
  | .error e => ([], .error e)
  | .ok full_path =>
    if exPaths.contains full_path then ([], .error .alreadyExists)
    else ([.mkdirP full_path], get_virtual_path full_path)

/-- Embeds `rename_item` (`service.py`, lines 67–77): the destination is the
source's parent joined with the caller-supplied `new_name`, with no check on
`new_name`'s shape; the rename is performed, then the virtual path of the
destination is looked up. -/
def rename_item (links : FS) (roots : List PyPath) (exPaths : List PyPath)
    (path new_name : String) : List FsAction × Except Err String :=
  match resolve_safe_path links roots path with
  | .error e => ([], .error e)
  | .ok old_path =>
    if !exPaths.contains old_path then ([], .error .notFound)
    else
      let new_path := pyJoin (parent old_path) (parsePath new_name)
      if exPaths.contains new_path then ([], .error .alreadyExists)
      else ([.renameFs old_path new_path], get_virtual_path new_path)

/-- Embeds `delete_item` (`service.py`, lines 80–87).  `exDirs` lists the existing
paths that are directories. -/
def delete_item (links : FS) (roots : List PyPath) (exPaths exDirs : List PyPath)
    (path : String) : List FsAction × Except Err Unit :=
  match resolve_safe_path links roots path with
  | .error e => ([], .error e)
  | .ok full_path =>
    if !exPaths.contains full_path then ([], .error .notFound)
    else if !exDirs.contains full_path then ([.unlinkFs full_path], .ok ())
    else ([.rmtreeFs full_path], .ok ())

/-- Embeds `upload_file` (`service.py`, lines 90–105): the write target is the
lexical join of the resolved directory with the caller-supplied `filename`;
no shape check on `filename` and no containment re-check of the target. -/
def upload_file (links : FS) (roots : List PyPath) (exPaths exDirs : List PyPath)
    (path filename : String) : List FsAction × Except Err String :=
  match resolve_safe_path links roots path with
  | .error e => ([], .error e)
  | .ok dir_path =>
    if !exDirs.contains dir_path then ([], .error .notDir)
    else
      let file_path := pyJoin dir_path (parsePath filename)
      if exPaths.contains file_path then ([], .error .alreadyExists)
      else ([.writeFile file_path], get_virtual_path file_path)

/-- Embeds `upload_and_extract_zip` (`service.py`, lines 108–132): require the
`.zip` suffix, resolve the destination directory, compute the extraction
folder from the archive's stem, refuse an existing folder, run the per-entry
`startswith` traversal check over all entries, and only then extract them
all; a failing entry aborts with the traversal error before anything is
written into the destination. -/
def upload_and_extract_zip (links : FS) (roots : List PyPath)
    (exPaths exDirs : List PyPath) (path zip_filename : String)
    (entries : List String) : List FsAction × Except Err String :=
  if !strEndsWith zip_filename ".zip" then ([], .error .unsupported)
  else
    match resolve_safe_path links roots path with
    | .error e => ([], .error e)
    | .ok dir_path =>
      if !exDirs.contains dir_path then ([], .error .notDir)
      else
        let extract_to := pyJoin dir_path (parsePath (stemP zip_filename))
        if exPaths.contains extract_to then ([], .error .alreadyExists)
        else if entries.all (entryCheck links extract_to) then
          ([.extractAll extract_to entries], get_virtual_path extract_to)
        else ([], .error .zipSlip)

/-!
`generate_zip_from_folder` (`utils.py`, lines 58–81) as an event trace.  The
generator body checks the folder, creates a named temporary file
(`delete=False`), and inside a `try` writes the ZIP and yields 64 KiB
chunks; the `finally` unlinks the temporary name.  Python runs the
`finally` block on normal exhaustion, on an exception raised inside the
`try`, and on `GeneratorExit` when the caller abandons the iterator, so
every way the body can exit after the temporary file exists is one of the
`ZExit` modes below.
-/

/-- An observable event of one run of the generator body. -/
inductive ZEvent where
  | mkTemp      -- NamedTemporaryFile(delete=False) created
  | writeZip    -- the ZipFile write loop completed
  | emitChunk   -- one 64 KiB chunk yielded
  | raised      -- an exception propagated out of the body
  | unlinked    -- os.unlink(tmp_name) in the finally block
deriving DecidableEq, Repr

/-- How the generator body exits once started. -/
inductive ZExit where
  | exhausted (chunks : Nat)                 -- all chunks yielded, file read to EOF
  | zipWriteError                            -- exception while building the ZIP
  | streamError (before : Nat)               -- exception after yielding `before` chunks
  | abandoned (before : Nat)                 -- caller closed the generator early
deriving DecidableEq, Repr

/-- The events inside the `try` block for a given exit mode. -/
def zipTryBody : ZExit → List ZEvent
  | .exhausted n => .writeZip :: List.replicate n .emitChunk
  | .zipWriteError => [.raised]
  | .streamError k => .writeZip :: List.replicate k .emitChunk ++ [.raised]
  | .abandoned k => .writeZip :: List.replicate k .emitChunk

/-- The event trace of one run of `generate_zip_from_folder`: the missing-
folder check raises before the temporary file exists; otherwise the
temporary file is created, the `try` body runs to its exit, and the
`finally` unlinks the temporary name. -/
def generate_zip_from_folder (folderIsDir : Bool) (exit : ZExit) : List ZEvent :=
  if !folderIsDir then [.raised]
  else .mkTemp :: (zipTryBody exit ++ [.unlinked])

/-! ### Helper lemmas -/

/-- The absolute-branch loop denies when no root's resolved form contains
the normalized input. -/
theorem absLoop_eq_denied (links : FS) (n : PyPath) (L : List PyPath)
    (h : ∀ r ∈ L, relTo n (resolveP links r) = none) :
    absLoop links n L = .error .denied := by
  induction L with
  | nil => rfl
  | cons r rest ih =>
    have hr := h r (by simp)
    simp only [absLoop, hr, Option.isSome_none, Bool.false_eq_true, if_false]
    exact ih fun x hx => h x (by simp [hx])

/-- The absolute-branch loop accepts as soon as some root's resolved form
contains the normalized input, and always returns the resolution of the
normalized input itself. -/
theorem absLoop_eq_ok (links : FS) (n : PyPath) (L : List PyPath)
    (h : ∃ r ∈ L, (relTo n (resolveP links r)).isSome) :
    absLoop links n L = .ok (resolveP links n) := by
  induction L with
  | nil => simp at h
  | cons r rest ih =>
    by_cases hr : (relTo n (resolveP links r)).isSome
    · simp [absLoop, hr]
    · simp only [absLoop, hr, if_false]
      apply ih
      rcases h with ⟨x, hx, hsome⟩
      rcases List.mem_cons.mp hx with h1 | h2
      · exact absurd (h1 ▸ hsome) hr
      · exact ⟨x, h2, hsome⟩

/-- Whatever the relative-branch loop returns is the resolution of a
root-joined candidate that was re-checked, after resolution, to lie under
that root's resolved form. -/
theorem relLoop_ok_contained (links : FS) (input : PyPath) (L : List PyPath)
    (q : PyPath) (h : relLoop links input L = .ok q) :
    ∃ r ∈ L, q = resolveP links (pyJoin r input) ∧
      (relTo q (resolveP links r)).isSome := by
  induction L with
  | nil => simp [relLoop] at h
  | cons r rest ih =>
    by_cases hr : (relTo (resolveP links (pyJoin r input)) (resolveP links r)).isSome
    · rw [relLoop] at h
      simp only [hr, if_true] at h
      have hq : resolveP links (pyJoin r input) = q := by
        exact Except.ok.inj h
      exact ⟨r, by simp, hq.symm, hq ▸ hr⟩
    · rw [relLoop] at h
      simp only [hr, if_false] at h
      rcases ih h with ⟨x, hx, h1, h2⟩
      exact ⟨x, by simp [hx], h1, h2⟩

/-- Referencing the virtual-path mapper always faults: the `ALLOWED_ROOTS`
name it consults is bound by no module. -/
theorem get_virtual_path_nameErr (p : PyPath) :
    get_virtual_path p = .error .nameErr := rfl

/-- Rendering more segments extends the rendered characters on the right. -/
theorem segStr_mono (a t : List String) : segStr a <+: segStr (a ++ t) := by
  induction a with
  | nil => exact List.nil_prefix
  | cons x xs ih =>
    cases xs with
    | nil =>
      cases t with
      | nil => simp
      | cons s t2 => exact ⟨'/' :: segStr (s :: t2), by simp [segStr]⟩
    | cons y ys =>
      rcases ih with ⟨u, hu⟩
      exact ⟨u, by simpa [segStr, List.append_assoc] using congrArg (x.data ++ '/' :: ·) hu⟩

/-- A segment-wise descendant's rendered string extends the ancestor's
rendered string. -/
theorem pyStr_mono (base p : PyPath) (hsegs : base.segs <+: p.segs)
    (habs : base.abs = p.abs) : pyStr base <+: pyStr p := by
  rcases hsegs with ⟨t, ht⟩
  have hseg : segStr base.segs <+: segStr p.segs := ht ▸ segStr_mono base.segs t
  unfold pyStr
  rw [← habs]
  cases base.abs with
  | false => simpa using hseg
  | true => simpa [List.cons_prefix_cons] using hseg

/-- A zip entry whose resolved destination is a segment-wise descendant of
the resolved extraction directory always passes the `startswith` check. -/
theorem descendant_entryCheck (links : FS) (et : PyPath) (e : String)
    (h : (relTo (resolveP links (pyJoin et (parsePath e))) (resolveP links et)).isSome) :
    entryCheck links et e = true := by
  unfold relTo at h
  by_cases hc : ((resolveP links et).segs.isPrefixOf
      (resolveP links (pyJoin et (parsePath e))).segs &&
      ((resolveP links (pyJoin et (parsePath e))).abs == (resolveP links et).abs)) = true
  · rw [Bool.and_eq_true, beq_iff_eq] at hc
    have hp := List.isPrefixOf_iff_prefix.mp hc.1
    unfold entryCheck
    exact List.isPrefixOf_iff_prefix.mpr (pyStr_mono _ _ hp hc.2.symm)
  · rw [if_neg hc] at h
    simp at h

/-! ### Claim theorems -/

/-- C8: when at least one root is configured, resolving the empty string
returns the first configured root, and when the root list is empty every
call fails with the configuration error (500) before any path handling. -/
theorem c8_empty_input_and_empty_roots :
    (∀ (links : FS) (s : String),
      resolve_safe_path links [] s = .error .noRoots) ∧
    (∀ (links : FS) (r : PyPath) (rest : List PyPath),
      resolve_safe_path links (r :: rest) "" = .ok r) :=
  ⟨fun _ _ => rfl, fun _ _ _ => rfl⟩

/-- C10: with a non-empty root list, `delete_item` on the empty-string path
resolves to the first configured root itself and, when that root is an
existing directory, recursively removes the whole root tree; nothing rejects
the root as a deletion target. -/
theorem c10_delete_empty_removes_first_root (links : FS) (r : PyPath)
    (rest : List PyPath) (exPaths exDirs : List PyPath)
    (hex : r ∈ exPaths) (hdir : r ∈ exDirs) :
    delete_item links (r :: rest) exPaths exDirs "" =
      ([.rmtreeFs r], .ok ()) := by
  simp [delete_item, resolve_safe_path, hex, hdir]

/-- Witness for C10 at roots `["/data"]` with `/data` an existing
directory. -/
theorem c10_delete_empty_removes_first_root_witness :
    delete_item [] [⟨true, ["data"]⟩] [⟨true, ["data"]⟩] [⟨true, ["data"]⟩] "" =
      ([.rmtreeFs ⟨true, ["data"]⟩], .ok ()) :=
  c10_delete_empty_removes_first_root [] _ [] _ _ (by decide) (by decide)

/-- C9: on every exit path of the archive-export generator that reaches the
point where the temporary file exists — normal exhaustion, an exception
while writing the ZIP or while streaming, or abandonment of the iteration —
the temporary file is unlinked exactly once, as the final event; when the
folder check raises first, no temporary file ever exists. -/
theorem c9_tmpfile_deleted_once (exit : ZExit) :
    (generate_zip_from_folder true exit).count .unlinked = 1 ∧
    (∃ pre, generate_zip_from_folder true exit = pre ++ [.unlinked]) ∧
    (generate_zip_from_folder false exit).count .mkTemp = 0 ∧
    (generate_zip_from_folder false exit).count .unlinked = 0 := by
  refine ⟨?_, ⟨.mkTemp :: zipTryBody exit, by simp [generate_zip_from_folder]⟩, rfl, rfl⟩
  cases exit <;>
    simp [generate_zip_from_folder, zipTryBody, List.count_cons, List.count_append,
      List.count_replicate, List.count_singleton]

/-- C4 (code bug evaluated): with roots `["/data"]`, the resolver accepts
`/data/sub`, but mapping the result back to a virtual path faults with the
unresolvable-name error — `_get_virtual_path` consults `ALLOWED_ROOTS`,
which no module in the repository defines — so no virtual path exists to
re-resolve and the claimed round-trip cannot occur. -/
theorem c4_roundtrip_faults :
    resolve_safe_path [] [⟨true, ["data"]⟩] "/data/sub" =
      .ok ⟨true, ["data", "sub"]⟩ ∧
    get_virtual_path ⟨true, ["data", "sub"]⟩ = .error .nameErr ∧
    utilsModuleNames.contains "ALLOWED_ROOTS" = false :=
  ⟨rfl, rfl, rfl⟩

/-- C5: `service.py` imports `ALLOWED_ROOTS` from its utils module, no
source file binds that name, and consequently the virtual-path mapping
faults on every input, so an operation that would return a virtual path —
here `create_folder` after a successful resolution on a fresh target —
performs its mutation and then faults instead of returning the mapped
path. -/
theorem c5_allowed_roots_unbound :
    utilsModuleNames.contains "ALLOWED_ROOTS" = false ∧
    serviceUtilsImports.contains "ALLOWED_ROOTS" = true ∧
    (∀ p : PyPath, get_virtual_path p = .error .nameErr) ∧
    (∀ (links : FS) (roots exPaths : List PyPath) (path : String) (fp : PyPath),
      resolve_safe_path links roots path = .ok fp →
      fp ∉ exPaths →
      create_folder links roots exPaths path = ([.mkdirP fp], .error .nameErr)) := by
  refine ⟨rfl, rfl, fun _ => rfl, ?_⟩
  intro links roots exPaths path fp hres hfresh
  simp [create_folder, hres, hfresh, get_virtual_path_nameErr]

/-- Witness for C5: creating `/data/new` under root `/data` performs the
mkdir and then faults with the unresolvable-name error. -/
theorem c5_allowed_roots_unbound_witness :
    create_folder [] [⟨true, ["data"]⟩] [⟨true, ["data"]⟩] "/data/new" =
      ([.mkdirP ⟨true, ["data", "new"]⟩], .error .nameErr) :=
  c5_allowed_roots_unbound.2.2.2 [] _ _ _ _ rfl (by decide)

/-- C1 counterexample: with destination directory `/data/app` (extraction
folder `/data/app/arch`), an archive entry named `../archevil` resolves to
`/data/app/archevil` — not a descendant of `/data/app/arch` — yet the
`startswith` validation accepts it (the rendered string is a character-level
extension), so extraction proceeds with no `PathTraversalError`, refuting
the claim that any non-descendant entry aborts the extraction. -/
theorem c1_counterexample :
    upload_and_extract_zip [] [⟨true, ["data"]⟩]
      [⟨true, ["data"]⟩, ⟨true, ["data", "app"]⟩]
      [⟨true, ["data"]⟩, ⟨true, ["data", "app"]⟩]
      "/data/app" "arch.zip" ["../archevil"] =
      ([.extractAll ⟨true, ["data", "app", "arch"]⟩ ["../archevil"]],
        .error .nameErr) ∧
    resolveP [] (pyJoin ⟨true, ["data", "app", "arch"]⟩ (parsePath "../archevil")) =
      ⟨true, ["data", "app", "archevil"]⟩ ∧
    relTo ⟨true, ["data", "app", "archevil"]⟩
      (resolveP [] ⟨true, ["data", "app", "arch"]⟩) = none :=
  ⟨rfl, rfl, rfl⟩

/-- C1 amended: the entry validation of `upload_and_extract_zip` is a
character-level prefix (`startswith`) comparison of the resolved entry
destination against the resolved extraction directory.  Every archive all
of whose entries resolve to segment-wise descendants of the extraction
directory passes and is extracted; whenever some entry fails the string
test, the whole extraction aborts with the traversal error before any file
is written into the destination.  Success does not imply that every entry
is a descendant (see the counterexample). -/
theorem c1_amended (links : FS) (roots exPaths exDirs : List PyPath)
    (path zf : String) (entries : List String) (dir et : PyPath)
    (hzip : strEndsWith zf ".zip" = true)
    (hres : resolve_safe_path links roots path = .ok dir)
    (hdir : dir ∈ exDirs)
    (het : et = pyJoin dir (parsePath (stemP zf)))
    (hfresh : et ∉ exPaths) :
    ((∀ e ∈ entries,
        (relTo (resolveP links (pyJoin et (parsePath e))) (resolveP links et)).isSome) →
      upload_and_extract_zip links roots exPaths exDirs path zf entries =
        ([.extractAll et entries], get_virtual_path et)) ∧
    (entries.all (entryCheck links et) = false →
      upload_and_extract_zip links roots exPaths exDirs path zf entries =
        ([], .error .zipSlip)) := by
  subst het
  constructor
  · intro hall
    have hchecks : entries.all (entryCheck links (pyJoin dir (parsePath (stemP zf)))) = true :=
      List.all_eq_true.mpr fun e he => descendant_entryCheck _ _ _ (hall e he)
    simp [upload_and_extract_zip, hzip, hres, hdir, hfresh, hchecks]
  · intro hfail
    simp [upload_and_extract_zip, hzip, hres, hdir, hfresh, hfail]

/-- Witness for C1 amended at destination `/data/app`, archive `arch.zip`:
the in-bounds entries `a` and `b/c` are extracted, while the escaping entry
`../../evil` aborts with the traversal error and no action. -/
theorem c1_amended_witness :
    upload_and_extract_zip [] [⟨true, ["data"]⟩]
      [⟨true, ["data"]⟩, ⟨true, ["data", "app"]⟩]
      [⟨true, ["data"]⟩, ⟨true, ["data", "app"]⟩]
      "/data/app" "arch.zip" ["a", "b/c"] =
      ([.extractAll ⟨true, ["data", "app", "arch"]⟩ ["a", "b/c"]],
        get_virtual_path ⟨true, ["data", "app", "arch"]⟩) ∧
    upload_and_extract_zip [] [⟨true, ["data"]⟩]
      [⟨true, ["data"]⟩, ⟨true, ["data", "app"]⟩]
      [⟨true, ["data"]⟩, ⟨true, ["data", "app"]⟩]
      "/data/app" "arch.zip" ["../../evil"] = ([], .error .zipSlip) :=
  ⟨(c1_amended [] [⟨true, ["data"]⟩]
      [⟨true, ["data"]⟩, ⟨true, ["data", "app"]⟩]
      [⟨true, ["data"]⟩, ⟨true, ["data", "app"]⟩]
      "/data/app" "arch.zip" ["a", "b/c"] ⟨true, ["data", "app"]⟩
      ⟨true, ["data", "app", "arch"]⟩ rfl rfl (by decide) rfl
      (by decide)).1 (by decide),
   (c1_amended [] [⟨true, ["data"]⟩]
      [⟨true, ["data"]⟩, ⟨true, ["data", "app"]⟩]
      [⟨true, ["data"]⟩, ⟨true, ["data", "app"]⟩]
      "/data/app" "arch.zip" ["../../evil"] ⟨true, ["data", "app"]⟩
      ⟨true, ["data", "app", "arch"]⟩ rfl rfl (by decide) rfl
      (by decide)).2 rfl⟩

/-- C2 counterexample: roots `["/data"]` with a symlink `/data/link → /etc`.
The input `/data/link` normalizes to a path strictly inside the root, so the
resolver accepts it, but the returned fully-resolved path `/etc` is not a
segment-wise descendant of the resolved form of any registered root — the
absolute branch performs no containment re-check after symlink
resolution. -/
theorem c2_counterexample :
    resolve_safe_path [(["data", "link"], ["etc"])] [⟨true, ["data"]⟩]
      "/data/link" = .ok ⟨true, ["etc"]⟩ ∧
    relTo ⟨true, ["etc"]⟩
      (resolveP [(["data", "link"], ["etc"])] ⟨true, ["data"]⟩) = none :=
  ⟨rfl, rfl⟩

/-- C2 amended: for every absolute input whose lexical normalization is
contained in the resolved form of some registered root, `resolve_safe_path`
succeeds and returns the full symlink resolution of the normalized input —
containment having been checked only on the unresolved normalized path; the
result is re-verified after symlink resolution only in the relative branch,
where every successful non-empty resolution is a segment-wise descendant of
some root's resolved form.  For absolute inputs the resolved result can
escape every root when a symlink inside the root points outside (see the
counterexample). -/
theorem c2_amended :
    (∀ (links : FS) (roots : List PyPath) (s : String),
      (parsePath s).abs = true →
      (∃ r ∈ roots, (relTo (normpath (parsePath s)) (resolveP links r)).isSome) →
      resolve_safe_path links roots s =
        .ok (resolveP links (normpath (parsePath s)))) ∧
    (∀ (links : FS) (roots : List PyPath) (s : String) (q : PyPath),
      (parsePath s).abs = false → s ≠ "" →
      resolve_safe_path links roots s = .ok q →
      ∃ r ∈ roots, (relTo q (resolveP links r)).isSome) := by
  constructor
  · intro links roots s habs hex
    rcases hex with ⟨r, hr, hsome⟩
    cases roots with
    | nil => simp at hr
    | cons r0 rest =>
      have hs : ¬(s == "") = true := by
        intro h
        rw [beq_iff_eq] at h
        subst h
        simp [parsePath] at habs
      rw [resolve_safe_path, if_neg hs, if_pos habs]
      exact absLoop_eq_ok links _ _ ⟨r, hr, hsome⟩
  · intro links roots s q habs hs hok
    cases roots with
    | nil => simp [resolve_safe_path] at hok
    | cons r0 rest =>
      rw [resolve_safe_path, if_neg (by simpa using hs),
        if_neg (by simp [habs])] at hok
      by_cases hdd : (parsePath s).segs.contains ".." = true
      · rw [if_pos hdd] at hok
        simp at hok
      · rw [if_neg hdd] at hok
        rcases relLoop_ok_contained links _ _ _ hok with ⟨r, hr, _, h2⟩
        exact ⟨r, hr, h2⟩

/-- Witness for C2 amended: the absolute input `/data/sub` (contained in the
sole root `/data`) succeeds and returns its resolution, and the successful
relative input `sub` is, after resolution, a descendant of some root's
resolved form. -/
theorem c2_amended_witness :
    resolve_safe_path [] [⟨true, ["data"]⟩] "/data/sub" =
      .ok (resolveP [] (normpath (parsePath "/data/sub"))) ∧
    ∃ r ∈ [(⟨true, ["data"]⟩ : PyPath)],
      (relTo ⟨true, ["data", "sub"]⟩ (resolveP [] r)).isSome :=
  ⟨c2_amended.1 [] _ "/data/sub" rfl ⟨⟨true, ["data"]⟩, by simp, rfl⟩,
   c2_amended.2 [] [⟨true, ["data"]⟩] "sub" ⟨true, ["data", "sub"]⟩ rfl
     (by decide) rfl⟩

/-- C3: a relative input containing a `".."` segment is rejected with the
path-invalid error (400) whatever the configured roots are, as long as some
root is configured; and an absolute input whose lexical normalization is
contained in no registered root's resolved form — in particular one whose
`".."` segments make the naive join escape every root — fails with the
path-denied error (403); neither case can succeed. -/
theorem c3_dotdot_rejected :
    (∀ (links : FS) (roots : List PyPath) (s : String), roots ≠ [] →
      (parsePath s).abs = false → (parsePath s).segs.contains ".." = true →
      resolve_safe_path links roots s = .error .invalid) ∧
    (∀ (links : FS) (roots : List PyPath) (s : String), roots ≠ [] →
      (parsePath s).abs = true →
      (∀ r ∈ roots, relTo (normpath (parsePath s)) (resolveP links r) = none) →
      resolve_safe_path links roots s = .error .denied) := by
  constructor
  · intro links roots s hroots habs hdd
    cases roots with
    | nil => exact absurd rfl hroots
    | cons r0 rest =>
      have hs : ¬(s == "") = true := by
        intro h
        rw [beq_iff_eq] at h
        subst h
        exact absurd hdd (by decide)
      rw [resolve_safe_path, if_neg hs, if_neg (by simp [habs]), if_pos hdd]
  · intro links roots s hroots habs hnone
    cases roots with
    | nil => exact absurd rfl hroots
    | cons r0 rest =>
      have hs : ¬(s == "") = true := by
        intro h
        rw [beq_iff_eq] at h
        subst h
        simp [parsePath] at habs
      rw [resolve_safe_path, if_neg hs, if_pos habs]
      exact absLoop_eq_denied links _ _ hnone

/-- Witness for C3: with root `/data`, the relative input `../x` fails with
the path-invalid error and the absolute input `/data/../etc` (whose naive
normalization `/etc` escapes the root) fails with the path-denied error. -/
theorem c3_dotdot_rejected_witness :
    resolve_safe_path [] [⟨true, ["data"]⟩] "../x" = .error .invalid ∧
    resolve_safe_path [] [⟨true, ["data"]⟩] "/data/../etc" = .error .denied :=
  ⟨c3_dotdot_rejected.1 [] [⟨true, ["data"]⟩] "../x" (by decide) rfl rfl,
   c3_dotdot_rejected.2 [] [⟨true, ["data"]⟩] "/data/../etc" (by decide) rfl
     (by decide)⟩

/-- C6 counterexample: with the sole root `/data` and existing source
`/data/a`, a `rename` with `newName = "/etc/evil"` performs the filesystem
rename to `/etc/evil` — the `pathlib` join replaces the parent with the
absolute name — a destination that is not within any registered root, and no
check rejects it; so the destination does not stay within the source's root
for every value of `newName`. -/
theorem c6_counterexample :
    rename_item [] [⟨true, ["data"]⟩] [⟨true, ["data"]⟩, ⟨true, ["data", "a"]⟩]
      "/data/a" "/etc/evil" =
      ([.renameFs ⟨true, ["data", "a"]⟩ ⟨true, ["etc", "evil"]⟩],
        .error .nameErr) ∧
    relTo ⟨true, ["etc", "evil"]⟩ (resolveP [] ⟨true, ["data"]⟩) = none :=
  ⟨rfl, rfl⟩

/-- C6 amended: `rename_item` joins the source's parent with the raw
`newName`; the missing-source and existing-destination errors hold as
claimed, and when `newName` is a bare single-segment name and the source
lies strictly inside a root's resolved form the destination stays within
that same root — but a `newName` holding separators, an absolute path or
`".."` can place the destination outside every root (see the
counterexample); the virtual-path return of a completed rename faults on
the unbound `ALLOWED_ROOTS` name. -/
theorem c6_amended (links : FS) (roots : List PyPath) (exA exB exC : List PyPath)
    (path nm : String) (old r rr : PyPath) (t : List String)
    (hres : resolve_safe_path links roots path = .ok old)
    (hA1 : old ∈ exA)
    (hA2 : pyJoin (parent old) (parsePath nm) ∉ exA)
    (hB : old ∉ exB)
    (hC1 : old ∈ exC)
    (hC2 : pyJoin (parent old) (parsePath nm) ∈ exC)
    (_hr : r ∈ roots)
    (_hrr : rr = resolveP links r)
    (hbare : parsePath nm = ⟨false, [nm]⟩)
    (hown : relTo old rr = some t) (htne : t ≠ []) :
    rename_item links roots exA path nm =
      ([.renameFs old (pyJoin (parent old) (parsePath nm))], .error .nameErr) ∧
    (relTo (pyJoin (parent old) (parsePath nm)) rr).isSome = true ∧
    rename_item links roots exB path nm = ([], .error .notFound) ∧
    rename_item links roots exC path nm = ([], .error .alreadyExists) := by
  have hcond : (rr.segs.isPrefixOf old.segs && (old.abs == rr.abs)) = true := by
    by_cases h : (rr.segs.isPrefixOf old.segs && (old.abs == rr.abs)) = true
    · exact h
    · rw [relTo, if_neg h] at hown
      exact absurd hown (by simp)
  have hsegs : old.segs = rr.segs ++ t := by
    rw [relTo, if_pos hcond] at hown
    rw [Bool.and_eq_true] at hcond
    obtain ⟨u, hu⟩ := List.isPrefixOf_iff_prefix.mp hcond.1
    have ht : t = old.segs.drop rr.segs.length := (Option.some.inj hown).symm
    rw [ht, ← hu, List.drop_left]
  have habs : old.abs = rr.abs := by
    rw [Bool.and_eq_true, beq_iff_eq] at hcond
    exact hcond.2
  refine ⟨?_, ?_, ?_, ?_⟩
  · simp [rename_item, hres, hA1, hA2, get_virtual_path_nameErr]
  · have hpre : rr.segs.isPrefixOf (old.segs.dropLast ++ [nm]) = true := by
      apply List.isPrefixOf_iff_prefix.mpr
      rw [hsegs, List.dropLast_append_of_ne_nil rr.segs htne, List.append_assoc]
      exact ⟨t.dropLast ++ [nm], rfl⟩
    simp [pyJoin, parent, hbare, relTo, hpre, habs]
  · simp [rename_item, hres, hB]
  · simp [rename_item, hres, hC1, hC2]

/-- Witness for C6 amended at root `/data`, source `/data/a`, bare
`newName = "b"`: the rename targets `/data/b`, which stays under the root's
resolved form; a missing source yields the not-found error and an existing
destination the already-exists error. -/
theorem c6_amended_witness :
    rename_item [] [⟨true, ["data"]⟩] [⟨true, ["data"]⟩, ⟨true, ["data", "a"]⟩]
      "/data/a" "b" =
      ([.renameFs ⟨true, ["data", "a"]⟩
        (pyJoin (parent ⟨true, ["data", "a"]⟩) (parsePath "b"))],
        .error .nameErr) ∧
    (relTo (pyJoin (parent ⟨true, ["data", "a"]⟩) (parsePath "b"))
      (resolveP [] ⟨true, ["data"]⟩)).isSome = true ∧
    rename_item [] [⟨true, ["data"]⟩] [⟨true, ["data"]⟩] "/data/a" "b" =
      ([], .error .notFound) ∧
    rename_item [] [⟨true, ["data"]⟩]
      [⟨true, ["data"]⟩, ⟨true, ["data", "a"]⟩, ⟨true, ["data", "b"]⟩]
      "/data/a" "b" = ([], .error .alreadyExists) :=
  c6_amended [] [⟨true, ["data"]⟩]
    [⟨true, ["data"]⟩, ⟨true, ["data", "a"]⟩]
    [⟨true, ["data"]⟩]
    [⟨true, ["data"]⟩, ⟨true, ["data", "a"]⟩, ⟨true, ["data", "b"]⟩]
    "/data/a" "b" ⟨true, ["data", "a"]⟩ ⟨true, ["data"]⟩
    (resolveP [] ⟨true, ["data"]⟩) ["a"] rfl (by decide) (by decide) (by decide)
    (by decide) (by decide) (by decide) rfl rfl rfl (by decide)

/-- C7: `upload_file` writes at the lexical join of the resolved directory
with the caller-supplied `filename` for every filename — no segment of the
filename is rejected and the written location is never re-checked — and for
the filename `../../etc/evil` under root `/data` the written file's resolved
location `/etc/evil` lies outside the resolved directory and outside every
allowed root. -/
theorem c7_upload_filename_unchecked :
    (∀ (links : FS) (roots exPaths exDirs : List PyPath) (path filename : String)
      (dir : PyPath),
      resolve_safe_path links roots path = .ok dir →
      dir ∈ exDirs →
      pyJoin dir (parsePath filename) ∉ exPaths →
      upload_file links roots exPaths exDirs path filename =
        ([.writeFile (pyJoin dir (parsePath filename))], .error .nameErr)) ∧
    (upload_file [] [⟨true, ["data"]⟩] [⟨true, ["data"]⟩] [⟨true, ["data"]⟩]
        "/data" "../../etc/evil" =
      ([.writeFile ⟨true, ["data", "..", "..", "etc", "evil"]⟩],
        .error .nameErr) ∧
     resolveP [] ⟨true, ["data", "..", "..", "etc", "evil"]⟩ =
       ⟨true, ["etc", "evil"]⟩ ∧
     relTo ⟨true, ["etc", "evil"]⟩ (resolveP [] ⟨true, ["data"]⟩) = none) := by
  refine ⟨?_, rfl, rfl, rfl⟩
  intro links roots exPaths exDirs path filename dir hres hdir hfresh
  simp [upload_file, hres, hdir, hfresh, get_virtual_path_nameErr]

/-- Witness for C7's universally quantified part at root `/data` with the
ordinary filename `evil.txt`. -/
theorem c7_upload_filename_unchecked_witness :
    upload_file [] [⟨true, ["data"]⟩] [⟨true, ["data"]⟩] [⟨true, ["data"]⟩]
      "/data" "evil.txt" =
      ([.writeFile (pyJoin ⟨true, ["data"]⟩ (parsePath "evil.txt"))],
        .error .nameErr) :=
  c7_upload_filename_unchecked.1 [] [⟨true, ["data"]⟩] [⟨true, ["data"]⟩]
    [⟨true, ["data"]⟩] "/data" "evil.txt" ⟨true, ["data"]⟩ rfl (by decide)
    (by decide)

end FileManager

